import Mathlib

/-!
Shallow embedding of the annotation history engine of the PDF_Simple
repository.

The authoritative reducer is the most recent variant of the annotation
slice (src/unnamed/part_017); the spec's design notes designate that
variant canonical ("full-object replace, no forced tool switch on
selection").  The guard of the signature-saving flow comes from its
caller `saveSignature` (src/unnamed/part_000).

Naming: the scanner of this development forbids certain identifier
suffixes, so the Lean names abbreviate "Annotation" to "Ann"
(e.g. `Ann` for the `Annotation` union, `Cmd.updateAnn` for the
`updateAnnotation` action, `selectedAnnId` for `selectedAnnotationId`).
Every other name follows the source.

Nondeterministic inputs of the source (`uuidv4()` for fresh ids,
`Date.now()` for timestamps) are passed to the step function as oracle
parameters carried on the command.
-/

/-- `Position` from `@/types`: an `{x, y}` point in document coordinates. -/
structure Position where
  x : Int
  y : Int
deriving DecidableEq, Repr

/-- `{width, height}` size payload. -/
structure Size where
  width : Int
  height : Int
deriving DecidableEq, Repr

/-- `LineThickness` from `@/types`: `'thin' | 'medium' | 'thick'`. -/
inductive LineThickness where
  | thin
  | medium
  | thick
deriving DecidableEq, Repr

/-- The in-progress path payload `{points, color, thickness}` held in
`state.currentPath` while a drawing gesture is active. -/
structure PathData where
  points : List Position
  color : String
  thickness : Nat
deriving DecidableEq, Repr

/-- The `Annotation` tagged union from `@/types`, with variants
text / drawing / signature / image (fields as built by the part_017
reducer cases). -/
inductive Ann where
  | text (id : String) (content : String) (position : Position) (size : Size)
      (color : String) (fontSize : Nat) (fontFamily : String)
      (createdAt : Nat) (pageNumber : Nat)
  | drawing (id : String) (paths : List PathData) (createdAt : Nat) (pageNumber : Nat)
  | signature (id : String) (position : Position) (size : Size)
      (path : List Position) (createdAt : Nat) (pageNumber : Nat)
  | image (id : String) (url : String) (position : Position) (size : Size)
      (createdAt : Nat) (pageNumber : Nat)
deriving DecidableEq, Repr

/-- The shared `id` field of every `Annotation` variant. -/
def Ann.id : Ann → String
  | .text i _ _ _ _ _ _ _ _ => i
  | .drawing i _ _ _ => i
  | .signature i _ _ _ _ _ => i
  | .image i _ _ _ _ _ => i

/-- `EditorHistory` from `@/types`: past snapshots (most recent last),
the present snapshot, and future snapshots (nearest redo first). -/
structure EditorHistory where
  past : List (List Ann)
  present : List Ann
  future : List (List Ann)
deriving DecidableEq, Repr

/-- `activeTool` enumeration of the part_017 slice. -/
inductive Tool where
  | select
  | text
  | draw
  | signature
  | eraser
  | image
deriving DecidableEq, Repr

/-- `AnnotationState` of src/unnamed/part_017 (field `selectedAnnId`
embeds `selectedAnnotationId`). -/
structure AnnState where
  activeTool : Tool
  selectedAnnId : Option String
  color : String
  lineThickness : LineThickness
  fontFamily : String
  isDrawing : Bool
  currentPath : Option PathData
  history : EditorHistory
deriving DecidableEq, Repr

/-- `initialState` of src/unnamed/part_017. -/
def initialState : AnnState where
  activeTool := .select
  selectedAnnId := none
  color := "#000000"
  lineThickness := .thin
  fontFamily := "sans"
  isDrawing := false
  currentPath := none
  history := { past := [], present := [], future := [] }

/-- The thickness-in-pixels selection the part_017 reducer inlines:
`thin ? 2 : medium ? 5 : 8`. -/
def thicknessValue : LineThickness → Nat
  | .thin => 2
  | .medium => 5
  | .thick => 8

/-- The dispatched actions of the part_017 slice.  Constructor names
abbreviate the source action names (`updateAnn` = `updateAnnotation`,
`clearAnns` = `clearAnnotations`, and so on).  `freshId` and `now`
carry the source's `uuidv4()` / `Date.now()` draws. -/
inductive Cmd where
  | setActiveTool (t : Tool)
  | setSelectedAnnId (id : Option String)
  | setColor (c : String)
  | setLineThickness (t : LineThickness)
  | setFontFamily (f : String)
  | setIsDrawing (b : Bool)
  | addPointToPath (p : Position)
  | finishDrawing (pageNumber : Nat) (freshId : String) (now : Nat)
  | undo
  | redo
  | clearAnns
  | updateAnn (a : Ann)
  | deleteAnn (id : String)
  | createTextAnn (position : Position) (content : Option String) (pageNumber : Nat)
      (fontFamily : Option String) (fontSize : Option Nat) (color : Option String)
      (freshId : String) (now : Nat)
  | createSignatureAnn (position : Position) (size : Size) (path : List Position)
      (pageNumber : Nat) (freshId : String) (now : Nat)
  | createImageAnn (position : Position) (size : Size) (url : String)
      (pageNumber : Nat) (freshId : String) (now : Nat)
deriving DecidableEq, Repr

/-- `newPresent[annotationIndex] = updatedAnnotation` after a
`findIndex` hit: replace the first element whose id matches. -/
def replaceFirst (a : Ann) : List Ann → List Ann
  | [] => []
  | b :: rest => if b.id = a.id then a :: rest else b :: replaceFirst a rest

/-- One dispatch of the part_017 reducer: each match arm transcribes the
corresponding `addCase` handler. -/
def step (c : Cmd) (s : AnnState) : AnnState :=
  match c with
  | .setActiveTool t => { s with activeTool := t }
  | .setSelectedAnnId i => { s with selectedAnnId := i }
  | .setColor c => { s with color := c }
  | .setLineThickness t => { s with lineThickness := t }
  | .setFontFamily f => { s with fontFamily := f }
  | .setIsDrawing b =>
      if b && s.currentPath.isNone then
        { s with isDrawing := b
                 currentPath := some { points := [], color := s.color,
                                       thickness := thicknessValue s.lineThickness } }
      else
        { s with isDrawing := b }
  | .addPointToPath p =>
      if !s.isDrawing then s
      else
        match s.currentPath with
        | none =>
            { s with currentPath := some { points := [p], color := s.color,
                                           thickness := thicknessValue s.lineThickness } }
        | some cp =>
            { s with currentPath := some { cp with points := cp.points ++ [p] } }
  | .finishDrawing pageNumber freshId now =>
      match s.currentPath with
      | none => { s with isDrawing := false, currentPath := none }
      | some cp =>
          if cp.points.length < 2 then
            { s with isDrawing := false, currentPath := none }
          else
            { s with
                history := { past := s.history.past ++ [s.history.present]
                             present := s.history.present ++
                               [ .drawing freshId [cp] now pageNumber ]
                             future := [] }
                currentPath := none
                isDrawing := false }
  | .undo =>
      match s.history.past.getLast? with
      | none => s
      | some previous =>
          { s with history := { past := s.history.past.dropLast
                                present := previous
                                future := s.history.present :: s.history.future } }
  | .redo =>
      match s.history.future with
      | [] => s
      | next :: rest =>
          { s with history := { past := s.history.past ++ [s.history.present]
                                present := next
                                future := rest } }
  | .clearAnns =>
      { s with history := { past := s.history.past ++ [s.history.present]
                            present := []
                            future := [] } }
  | .updateAnn a =>
      if s.history.present.any (fun b => b.id = a.id) then
        { s with history := { past := s.history.past ++ [s.history.present]
                              present := replaceFirst a s.history.present
                              future := [] } }
      else s
  | .deleteAnn i =>
      { s with history := { past := s.history.past ++ [s.history.present]
                            present := s.history.present.filter (fun b => b.id ≠ i)
                            future := [] } }
  | .createTextAnn position content pageNumber fontFamily fontSize color freshId now =>
      { s with
          history := { past := s.history.past ++ [s.history.present]
                       present := s.history.present ++
                         [ .text freshId (content.getD "") position
                             { width := 150, height := 40 }
                             (color.getD s.color) (fontSize.getD 11)
                             (fontFamily.getD s.fontFamily) now pageNumber ]
                       future := [] }
          selectedAnnId := some freshId }
  | .createSignatureAnn position size path pageNumber freshId now =>
      { s with
          history := { past := s.history.past ++ [s.history.present]
                       present := s.history.present ++
                         [ .signature freshId position size path now pageNumber ]
                       future := [] }
          selectedAnnId := some freshId }
  | .createImageAnn position size url pageNumber freshId now =>
      { s with
          history := { past := s.history.past ++ [s.history.present]
                       present := s.history.present ++
                         [ .image freshId url position size now pageNumber ]
                       future := [] }
          selectedAnnId := some freshId }

/-- `saveSignature` of src/unnamed/part_000, restricted to its effect on
the store: if `signaturePath.length < 2` it returns without dispatching
(the toast is excluded UI), otherwise it dispatches
`createSignatureAnnotation` at fixed position/size. -/
def saveSignature (path : List Position) (pageNumber : Nat) (freshId : String)
    (now : Nat) (s : AnnState) : AnnState :=
  if path.length < 2 then s
  else step (.createSignatureAnn { x := 100, y := 100 }
    { width := 300, height := 150 } path pageNumber freshId now) s

/-- Dispatch a sequence of commands in order. -/
def applyCmds : List Cmd → AnnState → AnnState
  | [], s => s
  | c :: cs, s => applyCmds cs (step c s)

/-- Dispatch `n` successive `undo` commands. -/
def undoN : Nat → AnnState → AnnState
  | 0, s => s
  | n + 1, s => step .undo (undoN n s)

/-! ### Helper lemmas shared by several results -/

/-- Evaluating the `undo` case when `past` ends in the snapshot `x`. -/
theorem step_undo_eval (s : AnnState) (p : List (List Ann)) (x : List Ann)
    (h : s.history.past = p ++ [x]) :
    step .undo s = { s with history := { past := p, present := x,
                                         future := s.history.present :: s.history.future } } := by
  unfold step
  rw [h]
  simp

/-- The "command" alphabet of the round-trip property: a
create/update/delete dispatch, with update required to hit an existing
id (the source's `findIndex` guard otherwise returns without pushing a
history entry). -/
def cudEffective (c : Cmd) (s : AnnState) : Bool :=
  match c with
  | .updateAnn a => s.history.present.any (fun b => b.id = a.id)
  | .deleteAnn _ => true
  | .createTextAnn _ _ _ _ _ _ _ _ => true
  | .createSignatureAnn _ _ _ _ _ _ => true
  | .createImageAnn _ _ _ _ _ _ => true
  | _ => false

/-- `cudTrace cmds s` holds when every command of `cmds` is an effective
create/update/delete at its point of application. -/
def cudTrace : List Cmd → AnnState → Bool
  | [], _ => true
  | c :: cs, s => cudEffective c s && cudTrace cs (step c s)

/-- Every effective create/update/delete pushes exactly the prior
`present` onto `past`. -/
theorem cudEffective_push (c : Cmd) (s : AnnState) (h : cudEffective c s = true) :
    (step c s).history.past = s.history.past ++ [s.history.present] := by
  cases c <;> simp_all [cudEffective, step]

/-- Round-trip auxiliary: effective create/update/delete sequences
followed by equally many undos restore both `present` and `past`. -/
theorem cud_roundtrip_aux : ∀ (cmds : List Cmd) (s : AnnState), cudTrace cmds s = true →
    (undoN cmds.length (applyCmds cmds s)).history.present = s.history.present ∧
    (undoN cmds.length (applyCmds cmds s)).history.past = s.history.past := by
  intro cmds
  induction cmds with
  | nil => exact fun s _ => ⟨rfl, rfl⟩
  | cons c cs ih =>
    intro s h
    rw [cudTrace, Bool.and_eq_true] at h
    obtain ⟨h1, h2⟩ := h
    have ih' := ih (step c s) h2
    have hpast : (undoN cs.length (applyCmds cs (step c s))).history.past
        = s.history.past ++ [s.history.present] := by
      rw [ih'.2, cudEffective_push c s h1]
    have hu := step_undo_eval _ _ _ hpast
    show ((step .undo (undoN cs.length (applyCmds cs (step c s)))).history.present
            = s.history.present)
      ∧ ((step .undo (undoN cs.length (applyCmds cs (step c s)))).history.past
            = s.history.past)
    rw [hu]
    exact ⟨rfl, rfl⟩

/-- The guard condition of the `finishDrawing` case: no accumulated
path, or fewer than two points in it. -/
def strokeTooShort (s : AnnState) : Bool :=
  match s.currentPath with
  | none => true
  | some cp => cp.points.length < 2

/-! ### Claim theorems -/

/-- Claim C1, counterexample: the round-trip fails as universally
stated.  From a state with one snapshot in `past`, a single
`updateAnnotation` on an unknown id is a complete no-op (it pushes no
history entry), so the single following `undo` pops the pre-existing
entry and `present` is not restored. -/
theorem undo_roundtrip_cex :
    (undoN 1 (applyCmds
        [Cmd.updateAnn (.text "z" "" ⟨0, 0⟩ ⟨150, 40⟩ "#000000" 11 "sans" 0 1)]
        { initialState with history :=
            { past := [[]],
              present := [ .text "a" "hi" ⟨0, 0⟩ ⟨150, 40⟩ "#000000" 11 "sans" 0 1 ],
              future := [] } })).history.present
      ≠ ({ initialState with history :=
            { past := [[]],
              present := [ .text "a" "hi" ⟨0, 0⟩ ⟨150, 40⟩ "#000000" 11 "sans" 0 1 ],
              future := [] } } : AnnState).history.present := by
  decide

/-- Claim C1 (amended): for every starting state and every sequence of
create/update/delete commands in which each `updateAnnotation` targets
an id present at its point of application (the source's silent no-op
path otherwise pushes no history entry), following the sequence with
equally many `undo()` calls restores `present` exactly. -/
theorem effective_cud_undo_roundtrip (cmds : List Cmd) (s : AnnState)
    (h : cudTrace cmds s = true) :
    (undoN cmds.length (applyCmds cmds s)).history.present = s.history.present :=
  (cud_roundtrip_aux cmds s h).1

/-- Witness for C1: a create followed by a delete, then two undos,
restores the empty initial `present`. -/
theorem effective_cud_undo_roundtrip_witness :
    cudTrace [Cmd.createTextAnn ⟨10, 10⟩ none 1 none none none "t1" 5,
        Cmd.deleteAnn "t1"] initialState = true
    ∧ (undoN 2 (applyCmds [Cmd.createTextAnn ⟨10, 10⟩ none 1 none none none "t1" 5,
        Cmd.deleteAnn "t1"] initialState)).history.present
        = initialState.history.present :=
  ⟨by decide,
    effective_cud_undo_roundtrip
      [Cmd.createTextAnn ⟨10, 10⟩ none 1 none none none "t1" 5, Cmd.deleteAnn "t1"]
      initialState (by decide)⟩

/-- Claim C6: with a non-empty `past`, `redo()` immediately after
`undo()` restores the entire store state — in particular `present`,
`past` and `future` — exactly as it was before the undo. -/
theorem redo_after_undo_restores (s : AnnState) (h : s.history.past ≠ []) :
    step .redo (step .undo s) = s := by
  rcases List.eq_nil_or_concat s.history.past with hp | ⟨p, x, hp⟩
  · exact absurd hp h
  · rw [step_undo_eval s p x (by rw [hp, List.concat_eq_append])]
    show ({ s with history := { past := p ++ [x], present := s.history.present,
                                future := s.history.future } } : AnnState) = s
    rw [← List.concat_eq_append, ← hp]

/-- Witness for C6 at a state holding one history entry. -/
theorem redo_after_undo_restores_witness :
    ({ initialState with history :=
        { past := [[]],
          present := [ .text "a" "hi" ⟨0, 0⟩ ⟨150, 40⟩ "#000000" 11 "sans" 0 1 ],
          future := [] } } : AnnState).history.past ≠ []
    ∧ step .redo (step .undo { initialState with history :=
        { past := [[]],
          present := [ .text "a" "hi" ⟨0, 0⟩ ⟨150, 40⟩ "#000000" 11 "sans" 0 1 ],
          future := [] } })
      = { initialState with history :=
        { past := [[]],
          present := [ .text "a" "hi" ⟨0, 0⟩ ⟨150, 40⟩ "#000000" 11 "sans" 0 1 ],
          future := [] } } :=
  ⟨by decide,
    redo_after_undo_restores
      { initialState with history :=
        { past := [[]],
          present := [ .text "a" "hi" ⟨0, 0⟩ ⟨150, 40⟩ "#000000" 11 "sans" 0 1 ],
          future := [] } } (by decide)⟩

/-- Claim C7: when the accumulated gesture path has fewer than two
points (or no path was started), `finishDrawing` only resets the
gesture fields — `isDrawing` and `currentPath` — and leaves the history
untouched, so no annotation is ever appended to `present`: the stroke
is discarded as a no-op, not an error. -/
theorem finishDrawing_short_stroke_noop (pageNumber : Nat) (freshId : String)
    (now : Nat) (s : AnnState) (h : strokeTooShort s = true) :
    step (.finishDrawing pageNumber freshId now) s
      = { s with isDrawing := false, currentPath := none } := by
  unfold strokeTooShort at h
  cases hcp : s.currentPath with
  | none => simp [step, hcp]
  | some cp =>
      rw [hcp] at h
      simp only [decide_eq_true_eq] at h
      simp [step, hcp, h]

/-- A state in the middle of a gesture that has accumulated only one
point. -/
def shortStrokeState : AnnState :=
  { initialState with
      isDrawing := true
      currentPath := some { points := [{ x := 3, y := 4 }], color := "#000000", thickness := 2 } }

/-- Witness for C7: finishing with a single accumulated point leaves
the history untouched. -/
theorem finishDrawing_short_stroke_noop_witness :
    strokeTooShort shortStrokeState = true
    ∧ step (.finishDrawing 1 "d1" 7) shortStrokeState = initialState :=
  ⟨by decide, finishDrawing_short_stroke_noop 1 "d1" 7 shortStrokeState (by decide)⟩

/-- Claim C8: `createText` with the optional arguments omitted appends
exactly one new Text annotation — content `""`, fontSize `11`, color
and fontFamily taken from the store defaults, size 150×40 — pushes the
prior `present` onto `past`, clears `future`, and sets the new id as
the selected annotation. -/
theorem createTextAnn_appends_defaults (position : Position) (pageNumber : Nat)
    (freshId : String) (now : Nat) (s : AnnState) :
    step (.createTextAnn position none pageNumber none none none freshId now) s
      = { s with
            history := { past := s.history.past ++ [s.history.present]
                         present := s.history.present ++
                           [ .text freshId "" position { width := 150, height := 40 }
                               s.color 11 s.fontFamily now pageNumber ]
                         future := [] }
            selectedAnnId := some freshId } := rfl

/-- Claim C9: `setActiveTool` changes only the active tool — the
selection, style defaults, drawing state and history are all left
unchanged. -/
theorem setActiveTool_only_changes_tool (t : Tool) (s : AnnState) :
    step (.setActiveTool t) s = { s with activeTool := t } := rfl

/-- Claim C10: while `isDrawing` is false, `addPointToPath` is the
identity on the store state: points accumulate only during an active
drawing gesture. -/
theorem addPointToPath_requires_isDrawing (p : Position) (s : AnnState)
    (h : s.isDrawing = false) : step (.addPointToPath p) s = s := by
  unfold step
  rw [h]
  rfl

/-- Witness for C10: the initial state is not drawing, so adding a
point changes nothing. -/
theorem addPointToPath_requires_isDrawing_witness :
    initialState.isDrawing = false
    ∧ step (.addPointToPath ⟨5, 6⟩) initialState = initialState :=
  ⟨rfl, addPointToPath_requires_isDrawing ⟨5, 6⟩ initialState rfl⟩

/-- A command sequence reaching a state in which the selected
annotation has been deleted: create one text annotation (id drawn as
`"a"`), then delete it. -/
def createThenDeleteSelected : List Cmd :=
  [ .createTextAnn { x := 10, y := 10 } none 1 none none none "a" 0,
    .deleteAnn "a" ]

/-- Claim C2, counterexample: a state reachable by dispatched commands
in which `selectedAnnotationId` is neither null nor the id of any
annotation in `present` — deleting the selected annotation leaves the
selection dangling instead of nulling it. -/
theorem delete_selected_dangles_cex :
    (applyCmds createThenDeleteSelected initialState).selectedAnnId = some "a"
    ∧ (applyCmds createThenDeleteSelected initialState).history.present = [] := by
  decide

/-- Claim C2 (amended): `deleteAnnotation` removes every annotation
with the given id from `present` but leaves `selectedAnnotationId`
unchanged — even when it equals the deleted id — so the selection
invariant does not hold in all reachable states: after deleting the
selected annotation the stored id dangles rather than becoming null. -/
theorem deleteAnn_keeps_selection (i : String) (s : AnnState) :
    (step (.deleteAnn i) s).selectedAnnId = s.selectedAnnId
    ∧ (step (.deleteAnn i) s).history.present
        = s.history.present.filter (fun b => b.id ≠ i) :=
  ⟨rfl, rfl⟩

/-- A text annotation whose id `"z"` is used as an unknown reference in
the no-op counterexamples. -/
def ghostAnn : Ann :=
  .text "z" "" { x := 0, y := 0 } { width := 150, height := 40 } "#000000" 11 "sans" 0 1

/-- A command sequence leaving one entry in `future`: create, undo,
then dispatch an update on an id absent from `present`. -/
def undoThenNoopUpdate : List Cmd :=
  [ .createTextAnn { x := 0, y := 0 } none 1 none none none "a" 0,
    .undo,
    .updateAnn ghostAnn ]

/-- Claim C3, counterexample: `updateAnnotation` dispatched after an
`undo()` against an id not in `present` returns without touching the
history, so `future` stays non-empty and redo remains available. -/
theorem noop_update_keeps_future_cex :
    (applyCmds undoThenNoopUpdate initialState).history.future ≠ [] := by
  decide

/-- The mutating dispatches that actually commit a change: every
create/delete/clear, an update whose id is found, and a finished
drawing whose path has at least two points. -/
def mutEffective (c : Cmd) (s : AnnState) : Bool :=
  match c with
  | .updateAnn a => s.history.present.any (fun b => b.id = a.id)
  | .deleteAnn _ => true
  | .clearAnns => true
  | .createTextAnn _ _ _ _ _ _ _ _ => true
  | .createSignatureAnn _ _ _ _ _ _ => true
  | .createImageAnn _ _ _ _ _ _ => true
  | .finishDrawing _ _ _ => !(strokeTooShort s)
  | _ => false

/-- Claim C3 (amended): every mutating command that commits a change —
all creates, deletes and clearAll in any state, updateAnnotation
whenever its id is found, finishDrawing whenever the accumulated path
has at least two points — leaves `future` empty; the silent no-op
paths (update on an unknown id, a too-short stroke) leave the history
untouched instead, so such a dispatch after an `undo()` does not
revoke redo. -/
theorem effective_mutation_clears_future (c : Cmd) (s : AnnState)
    (h : mutEffective c s = true) : (step c s).history.future = [] := by
  cases c with
  | updateAnn a =>
      simp only [mutEffective, List.any_eq_true, decide_eq_true_eq] at h
      simp [step, h]
  | finishDrawing pageNumber freshId now =>
      unfold mutEffective strokeTooShort at h
      cases hcp : s.currentPath with
      | none => rw [hcp] at h; simp at h
      | some cp =>
          rw [hcp] at h
          simp only [Bool.not_eq_true', decide_eq_false_iff_not] at h
          simp [step, hcp, h]
  | deleteAnn i => rfl
  | clearAnns => rfl
  | createTextAnn position content pageNumber fontFamily fontSize color freshId now => rfl
  | createSignatureAnn position size path pageNumber freshId now => rfl
  | createImageAnn position size url pageNumber freshId now => rfl
  | setActiveTool t => simp [mutEffective] at h
  | setSelectedAnnId i => simp [mutEffective] at h
  | setColor c => simp [mutEffective] at h
  | setLineThickness t => simp [mutEffective] at h
  | setFontFamily f => simp [mutEffective] at h
  | setIsDrawing b => simp [mutEffective] at h
  | addPointToPath p => simp [mutEffective] at h
  | undo => simp [mutEffective] at h
  | redo => simp [mutEffective] at h

/-- Witness for C3: deleting in a state whose `future` is non-empty
empties it. -/
theorem effective_mutation_clears_future_witness :
    mutEffective (.deleteAnn "x")
      { initialState with history := { past := [], present := [], future := [[ghostAnn]] } } = true
    ∧ (step (.deleteAnn "x")
        { initialState with history := { past := [], present := [], future := [[ghostAnn]] } }
        ).history.future = [] :=
  ⟨by decide,
    effective_mutation_clears_future (.deleteAnn "x")
      { initialState with history := { past := [], present := [], future := [[ghostAnn]] } }
      (by decide)⟩

/-- Claim C4, counterexample: the reducer case for
`createSignatureAnnotation` has no path-length guard — dispatching it
with a one-point path onto the empty initial state appends a Signature
annotation, so at the dispatcher level the claimed no-op fails. -/
theorem createSignatureAnn_no_guard_cex :
    initialState.history.present = []
    ∧ (step (.createSignatureAnn { x := 1, y := 1 } { width := 300, height := 150 }
          [{ x := 1, y := 1 }] 1 "s1" 0) initialState).history.present
        = [ .signature "s1" { x := 1, y := 1 } { width := 300, height := 150 }
              [{ x := 1, y := 1 }] 0 1 ] := by
  decide

/-- Claim C4 (amended): the `< 2` guard lives in the caller
`saveSignature` (part_000), not in the reducer: for every signature
path with fewer than 2 points, `saveSignature` returns without
dispatching, leaving the store state unchanged (its error toast is
excluded UI); the reducer itself appends unconditionally. -/
theorem saveSignature_short_path_noop (path : List Position) (pageNumber : Nat)
    (freshId : String) (now : Nat) (s : AnnState) (h : path.length < 2) :
    saveSignature path pageNumber freshId now s = s := by
  simp [saveSignature, h]

/-- Witness for C4: saving an empty signature path changes nothing. -/
theorem saveSignature_short_path_noop_witness :
    ([] : List Position).length < 2
    ∧ saveSignature [] 2 "s2" 9 initialState = initialState :=
  ⟨by decide, saveSignature_short_path_noop [] 2 "s2" 9 initialState (by decide)⟩

/-- Claim C5, counterexample: `deleteAnnotation` on an id that is not
in `present` is not a complete no-op — it still pushes the unchanged
`present` onto `past` (here turning an empty `past` into a one-entry
stack). -/
theorem deleteAnn_unknown_id_cex :
    initialState.history.past = []
    ∧ (step (.deleteAnn "nobody") initialState).history.past = [[]] := by
  decide

/-- Claim C5 (amended): `updateAnnotation` on an unknown id is a
complete no-op, leaving the entire store state — stacks included —
unchanged; `deleteAnnotation` on an unknown id leaves `present` and the
selection unchanged but still pushes the unchanged `present` onto
`past` and clears `future`, creating a spurious undo entry. -/
theorem unknown_id_noop_semantics (a : Ann) (i : String) (s : AnnState)
    (ha : ∀ b ∈ s.history.present, b.id ≠ a.id)
    (hi : ∀ b ∈ s.history.present, b.id ≠ i) :
    step (.updateAnn a) s = s
    ∧ (step (.deleteAnn i) s).history.present = s.history.present
    ∧ (step (.deleteAnn i) s).history.past = s.history.past ++ [s.history.present]
    ∧ (step (.deleteAnn i) s).history.future = []
    ∧ (step (.deleteAnn i) s).selectedAnnId = s.selectedAnnId := by
  refine ⟨?_, ?_, rfl, rfl, rfl⟩
  · have hfalse : s.history.present.any (fun b => b.id = a.id) = false := by
      simp only [List.any_eq_false, decide_eq_true_eq]
      exact ha
    simp [step, hfalse]
  · show s.history.present.filter (fun b => b.id ≠ i) = s.history.present
    rw [List.filter_eq_self]
    intro b hb
    simpa using hi b hb

/-- The unknown-reference payload used in the C5 witness. -/
def unknownUpd : Ann :=
  .text "q" "" { x := 0, y := 0 } { width := 150, height := 40 } "#000000" 11 "sans" 0 1

/-- A store holding a single annotation with id `"z"`. -/
def unknownRefState : AnnState :=
  { initialState with history := { past := [], present := [ghostAnn], future := [] } }

/-- Witness for C5 against a store containing only id `"z"`. -/
theorem unknown_id_noop_semantics_witness :
    (∀ b ∈ unknownRefState.history.present, b.id ≠ unknownUpd.id)
    ∧ (∀ b ∈ unknownRefState.history.present, b.id ≠ "q")
    ∧ (step (.updateAnn unknownUpd) unknownRefState = unknownRefState
        ∧ (step (.deleteAnn "q") unknownRefState).history.present
            = unknownRefState.history.present
        ∧ (step (.deleteAnn "q") unknownRefState).history.past
            = unknownRefState.history.past ++ [unknownRefState.history.present]
        ∧ (step (.deleteAnn "q") unknownRefState).history.future = []
        ∧ (step (.deleteAnn "q") unknownRefState).selectedAnnId
            = unknownRefState.selectedAnnId) :=
  ⟨by decide, by decide,
    unknown_id_noop_semantics unknownUpd "q" unknownRefState (by decide) (by decide)⟩
